import Mathlib

/-!
Verification of the course task submission layer (`task_submit.py`).

The Python module coordinates background course tasks: it reserves a durable
`CourseTaskLog` row per logical task key, dispatches the task to an external
executor, normalizes the executor state back into the row, and answers status
queries.  The definitions below are a shallow embedding of that module:

* Database rows become the structure `CourseTaskLog`; the table becomes a
  `List CourseTaskLog` threaded through each operation.
* JSON-encoded dictionaries (`task_input`, `task_output`, executor results)
  become structures with `Option` fields standing for possibly-missing keys.
* Python exceptions become `Option`/`Except` results (`none` / `.error` =
  the call raised).
* Celery's `READY_STATES` is the concrete set SUCCESS / FAILURE / REVOKED.

Function names follow the source (`_reserve_task`, `_update_course_task_log`,
`get_task_completion_message`, ...).
-/

/-- Celery READY_STATES: the terminal task states. -/
def READY_STATES : List String := ["SUCCESS", "FAILURE", "REVOKED"]

/-- Membership in Celery READY_STATES, as a boolean test. -/
def is_ready_state (s : String) : Bool := READY_STATES.contains s

/-- Parsed form of the JSON stored in `CourseTaskLog.task_input`:
`{'problem_url': ..., 'student': ...?}` where the student key is optional. -/
structure TaskInput where
  problem_url : String
  student : Option String
deriving DecidableEq

/-- Parsed form of a JSON dictionary used for `task_output`, for progress
payloads and for executor result dictionaries.  Each field models one
possibly-absent key of the Python dict. -/
structure OutputDict where
  message : Option String
  exception : Option String
  traceback : Option String
  action_name : Option String
  attempted : Option Int
  updated : Option Int
  total : Option Int
deriving DecidableEq

/-- Dictionary holding only a `message` key (the shape written by the
REVOKED branch of `_update_course_task_log`). -/
def OutputDict.messageOnly (m : String) : OutputDict :=
  ⟨some m, none, none, none, none, none, none⟩

/-- Dictionary holding the progress counter keys
`action_name`, `attempted`, `updated`, `total`. -/
def OutputDict.progress (act : String) (na nu nt : Int) : OutputDict :=
  ⟨none, none, none, some act, some na, some nu, some nt⟩

/-- Dictionary written by the FAILURE branch:
`{'exception': ..., 'message': ..., 'traceback'?: ...}`. -/
def OutputDict.failure (exc m : String) (tb : Option String) : OutputDict :=
  ⟨some m, some exc, tb, none, none, none, none⟩

/-- One row of the `CourseTaskLog` table.  `task_id` is the executor task id,
absent until dispatch; `task_output` is the serialized result payload, absent
until first written. -/
structure CourseTaskLog where
  id : Nat
  course_id : String
  task_type : String
  task_key : String
  task_input : Option TaskInput
  task_id : Option String
  task_state : String
  task_output : Option OutputDict
  requester : String
deriving DecidableEq

/-- Raw `result` attribute of an executor `AsyncResult`: either a
mapping-shaped value or an exception-shaped value carrying a type name and a
message (the FAILURE case stores the raised exception there). -/
inductive ResultPayload
  | dict (d : OutputDict)
  | exc (typeName : String) (message : String)
deriving DecidableEq

/-- Snapshot of an executor `AsyncResult`: the fields the module reads once
at the top of `_update_course_task_log`. -/
structure TaskResult where
  task_id : String
  state : String
  result : ResultPayload
  traceback : Option String
deriving DecidableEq

/-- Django user as consumed by `_encode_problem_and_student_input`:
only `id` (integer primary key) and `username` are read. -/
structure Student where
  id : Nat
  username : String
deriving DecidableEq

/-- Encode problem_url and optional student into `(task_input, task_key)`,
mirroring `_encode_problem_and_student_input`: the key is
`str(student.id) + "_" + problem_url`, with the empty string in place of the
id when no student is given. -/
def _encode_problem_and_student_input (problem_url : String) (student : Option Student) :
    TaskInput × String :=
  match student with
  | some s => (⟨problem_url, some s.username⟩, Nat.repr s.id ++ "_" ++ problem_url)
  | none => (⟨problem_url, none⟩, "" ++ "_" ++ problem_url)

/-- Auxiliary: `Nat.toDigitsCore` never shrinks its accumulator. -/
lemma toDigitsCore_length_le (b : Nat) :
    ∀ (f n : Nat) (l : List Char), l.length ≤ (Nat.toDigitsCore b f n l).length := by
  intro f
  induction f with
  | zero => intro n l; simp [Nat.toDigitsCore]
  | succ f ih =>
    intro n l
    simp only [Nat.toDigitsCore]
    split
    · simp
    · exact Nat.le_trans (Nat.le_succ _) (ih (n / b) (Nat.digitChar (n % b) :: l))

/-- The decimal representation of a natural number is a nonempty string. -/
lemma repr_length_pos (n : Nat) : 0 < (Nat.repr n).length := by
  show 0 < (Nat.toDigits 10 n).asString.length
  have hlen : (Nat.toDigits 10 n).asString.length = (Nat.toDigits 10 n).length := rfl
  rw [hlen]
  show 0 < (Nat.toDigitsCore 10 (n + 1) n []).length
  simp only [Nat.toDigitsCore]
  split
  · simp
  · exact Nat.lt_of_lt_of_le (by simp) (toDigitsCore_length_le 10 n (n / 10) _)

/-- C9: `_encode_problem_and_student_input` is deterministic (it is a pure
function of its arguments, so equal inputs give equal outputs), and for every
problem url the task_key computed with a student differs from the task_key
computed with no student, because the student key prefixes the nonempty
decimal id where the bulk key prefixes the empty string. -/
theorem C9_encode_deterministic_and_keys_distinct (problem_url : String) (s : Student)
    (st : Option Student) :
    _encode_problem_and_student_input problem_url st =
      _encode_problem_and_student_input problem_url st ∧
    (_encode_problem_and_student_input problem_url (some s)).2 ≠
      (_encode_problem_and_student_input problem_url none).2 := by
  refine ⟨rfl, ?_⟩
  intro h
  simp only [_encode_problem_and_student_input] at h
  have hlen := congrArg String.length h
  rw [String.length_append, String.length_append, String.length_append,
    String.length_append] at hlen
  have h0 : (Nat.repr s.id).length = ("" : String).length := by omega
  have hpos := repr_length_pos s.id
  simp at h0
  omega

/-- Rows matching (course_id, task_type, task_key) whose state is not
terminal: the queryset built inside `_task_is_running` (a filter on the three
key columns followed by an exclude for each READY state). -/
def running_filter (store : List CourseTaskLog) (course_id task_type task_key : String) :
    List CourseTaskLog :=
  store.filter (fun e => e.course_id == course_id && e.task_type == task_type &&
    e.task_key == task_key && !(READY_STATES.contains e.task_state))

/-- Mirrors `_task_is_running`: the filtered queryset is nonempty. -/
def _task_is_running (store : List CourseTaskLog) (course_id task_type task_key : String) :
    Bool :=
  decide (0 < (running_filter store course_id task_type task_key).length)

/-- Second statement of `_reserve_task`: given the outcome of the running
check, either raise `AlreadyRunningError` (modelled as `Except.error`) or
insert the new row in state QUEUING with no task_id.  The check and the
insert are separate database statements in the source, each committed on its
own under `@transaction.autocommit`, so they are modelled as two phases that
a concurrent schedule may interleave. -/
def reserve_insert (store : List CourseTaskLog) (next_id : Nat)
    (course_id task_type task_key : String) (task_input : TaskInput) (requester : String)
    (running : Bool) : Except String CourseTaskLog × List CourseTaskLog :=
  if running then (Except.error "requested task is already running", store)
  else
    let course_task_log : CourseTaskLog :=
      ⟨next_id, course_id, task_type, task_key, some task_input, none, "QUEUING", none, requester⟩
    (Except.ok course_task_log, store ++ [course_task_log])

/-- Mirrors `_reserve_task` when its two statements run without interleaving:
check `_task_is_running`, then raise or insert. -/
def _reserve_task (store : List CourseTaskLog) (next_id : Nat)
    (course_id task_type task_key : String) (task_input : TaskInput) (requester : String) :
    Except String CourseTaskLog × List CourseTaskLog :=
  reserve_insert store next_id course_id task_type task_key task_input requester
    (_task_is_running store course_id task_type task_key)

/-- The schedule in which two concurrent `_reserve_task` calls with the same
key both execute their `_task_is_running` check before either executes its
insert.  Nothing in the source forbids this schedule: `transaction.autocommit`
commits each statement separately and no lock or uniqueness constraint spans
the check and the insert. -/
def reserve_interleaved (store : List CourseTaskLog) (idA idB : Nat)
    (course_id task_type task_key : String) (task_input : TaskInput) (reqA reqB : String) :
    Except String CourseTaskLog × Except String CourseTaskLog × List CourseTaskLog :=
  let runningA := _task_is_running store course_id task_type task_key
  let runningB := _task_is_running store course_id task_type task_key
  let resA := reserve_insert store idA course_id task_type task_key task_input reqA runningA
  let resB := reserve_insert resA.2 idB course_id task_type task_key task_input reqB runningB
  (resA.1, resB.1, resB.2)

/-- Helper: the boolean `_task_is_running` test holds exactly when the store
has a row with the given key whose state is not terminal. -/
lemma task_is_running_iff (store : List CourseTaskLog) (course_id task_type task_key : String) :
    _task_is_running store course_id task_type task_key = true ↔
    ∃ e ∈ store, e.course_id = course_id ∧ e.task_type = task_type ∧
      e.task_key = task_key ∧ e.task_state ∉ READY_STATES := by
  simp only [_task_is_running, running_filter, decide_eq_true_eq,
    ← List.countP_eq_length_filter, List.countP_pos_iff]
  constructor
  · rintro ⟨e, he, hp⟩
    simp only [Bool.and_eq_true, beq_iff_eq, Bool.not_eq_true'] at hp
    refine ⟨e, he, hp.1.1.1, hp.1.1.2, hp.1.2, ?_⟩
    intro hmem
    have := (@List.elem_iff String _ _ e.task_state READY_STATES).mpr hmem
    rw [List.contains] at hp
    rw [this] at hp
    exact Bool.noConfusion hp.2
  · rintro ⟨e, he, h1, h2, h3, h4⟩
    refine ⟨e, he, ?_⟩
    simp only [Bool.and_eq_true, beq_iff_eq, Bool.not_eq_true']
    refine ⟨⟨⟨h1, h2⟩, h3⟩, ?_⟩
    rw [List.contains]
    exact Bool.eq_false_iff.mpr (fun hc => h4 ((List.elem_iff).mp hc))

/-- Output dictionary assembled by `_update_course_task_log` for the caller:
the `message`, `task_progress` and `task_traceback` keys it may set. -/
structure UpdateOutput where
  message : Option String
  task_progress : Option OutputDict
  task_traceback : Option String
deriving DecidableEq

/-- Progress message built in the PROGRESS branch:
`"Attempted {attempted} of {total}, {action_name} {updated}"`. -/
def progress_message (na nt : Int) (act : String) (nu : Int) : String :=
  "Attempted " ++ toString na ++ " of " ++ toString nt ++ ", " ++ act ++ " " ++ toString nu

/-- State-specific branch of `_update_course_task_log` (the if/elif chain on
`result_state`).  Returns the row (with `task_output` possibly rewritten),
the output dictionary and the `entry_needs_saving` flag; `none` models a
Python exception inside the branch (a KeyError on a missing counter key, a
TypeError from membership or serialization on an exception-shaped payload, or
an AttributeError reading `.message` off a mapping). -/
def update_branch (entry : CourseTaskLog) (task_result : TaskResult) :
    Option (CourseTaskLog × UpdateOutput × Bool) :=
  if task_result.state = "PROGRESS" then
    match task_result.result with
    | ResultPayload.exc _ _ => none
    | ResultPayload.dict d =>
      if d.attempted.isSome then
        match d.attempted, d.updated, d.total, d.action_name with
        | some na, some nu, some nt, some act =>
          some (entry, ⟨some (progress_message na nt act nu), some d, none⟩, false)
        | _, _, _, _ => none
      else
        some (entry, ⟨none, some d, none⟩, false)
  else if task_result.state = "SUCCESS" then
    match task_result.result with
    | ResultPayload.dict d =>
      some ({ entry with task_output := some d }, ⟨none, some d, none⟩, false)
    | ResultPayload.exc _ _ => none
  else if task_result.state = "FAILURE" then
    match task_result.result with
    | ResultPayload.dict _ => none
    | ResultPayload.exc typeName m =>
      match task_result.traceback with
      | some tb =>
        let task_progress := OutputDict.failure typeName m (some tb)
        some ({ entry with task_output := some task_progress },
          ⟨some m, some task_progress, some tb⟩, false)
      | none =>
        let task_progress := OutputDict.failure typeName m none
        some ({ entry with task_output := some task_progress },
          ⟨some m, some task_progress, none⟩, false)
  else if task_result.state = "REVOKED" then
    let task_progress := OutputDict.messageOnly "Task revoked before running"
    some ({ entry with task_output := some task_progress },
      ⟨some "Task revoked before running", some task_progress, none⟩, true)
  else
    some (entry, ⟨none, none, none⟩, false)

/-- Mirrors `_update_course_task_log`: run the state-specific branch, then
copy `result_state` and `task_id` into the row when the observed state
differs from the stored one.  The returned boolean is `entry_needs_saving`;
the caller performs the store write (the source calls `save()` inside, which
the pure model surfaces as this flag). -/
def _update_course_task_log (entry : CourseTaskLog) (task_result : TaskResult) :
    Option (CourseTaskLog × UpdateOutput × Bool) :=
  (update_branch entry task_result).map (fun r =>
    match r with
    | (e, out, needs_saving) =>
      if task_result.state ≠ e.task_state then
        ({ e with task_state := task_result.state, task_id := some task_result.task_id },
          out, needs_saving)
      else
        (e, out, needs_saving))

/-- Write a row back to the table, keyed by primary key (Django `save()`). -/
def save_entry (store : List CourseTaskLog) (e : CourseTaskLog) : List CourseTaskLog :=
  store.map (fun x => if x.id = e.id then e else x)

/-- Mirrors `_update_task`: apply `_update_course_task_log` and then
unconditionally save the row. -/
def _update_task (store : List CourseTaskLog) (course_task_log : CourseTaskLog)
    (task_result : TaskResult) : Option (CourseTaskLog × List CourseTaskLog) :=
  match _update_course_task_log course_task_log task_result with
  | none => none
  | some (e, _, _) => some (e, save_entry store e)

/-- Mirrors `get_task_completion_message`: build the `(succeeded, message)`
pair from a row's stored output.  `none` models a raised exception (a missing
`message` key on a FAILURE/REVOKED row, a missing counter key, or the
UnboundLocalError at the final `format` when no branch assigned `msg`). -/
def get_task_completion_message (entry : CourseTaskLog) : Option (Bool × String) :=
  match entry.task_output with
  | none => some (false, "No status information available")
  | some task_output =>
    if entry.task_state = "FAILURE" ∨ entry.task_state = "REVOKED" then
      match task_output.message with
      | none => none
      | some m => some (false, m)
    else
      match task_output.action_name, task_output.attempted,
          task_output.updated, task_output.total with
      | some action_name, some num_attempted, some num_updated, some num_total =>
        match entry.task_input with
        | none => some (false, "No status information available")
        | some task_input =>
          let student := task_input.student
          let r : Bool × Option String :=
            match student with
            | some s =>
              if num_attempted = 0 then
                (false, some ("Unable to find submission to be " ++ action_name ++
                  " for student \x27" ++ s ++ "\x27"))
              else if num_updated = 0 then
                (false, some ("Problem failed to be " ++ action_name ++
                  " for student \x27" ++ s ++ "\x27"))
              else
                (true, some ("Problem successfully " ++ action_name ++
                  " for student \x27" ++ s ++ "\x27"))
            | none =>
              if num_attempted = 0 then
                (false, some ("Unable to find any students with submissions to be " ++
                  action_name))
              else if num_updated = 0 then
                (false, some ("Problem failed to be " ++ action_name ++ " for any of " ++
                  toString num_attempted ++ " students"))
              else if num_updated = num_attempted then
                (true, some ("Problem successfully " ++ action_name ++ " for " ++
                  toString num_attempted ++ " students"))
              else if num_updated < num_attempted then
                (false, some ("Problem " ++ action_name ++ " for " ++ toString num_updated ++
                  " of " ++ toString num_attempted ++ " students"))
              else
                (false, none)
          let msg : Option String :=
            if student.isSome && (num_attempted != num_total) then
              r.2.map (fun m => m ++ " (out of " ++ toString num_total ++ ")")
            else
              r.2
          msg.map (fun m => (r.1, m))
      | _, _, _, _ => none

/-- The JSON status dictionary assembled by `_get_course_task_log_status`.
`task_id` mirrors the row's nullable executor id; the optional fields model
keys that are only sometimes present. -/
structure Status where
  task_id : Option String
  task_state : String
  in_progress : Bool
  message : Option String
  task_progress : Option OutputDict
  task_traceback : Option String
  succeeded : Option Bool
deriving DecidableEq

/-- Mirrors `_get_course_task_log_status`.  The executor is a function from
task id to its `AsyncResult` snapshot (the `AsyncResult(task_id)` lookup).
The first component is `none` when the call raises, `some none` when the
task id is unknown (the Python function returns None), and `some (some st)`
on success; the second component is the table as persisted when the call
returns or raises (only a REVOKED observation triggers a save here). -/
def _get_course_task_log_status (store : List CourseTaskLog)
    (executor : String → TaskResult) (tid : String) :
    Option (Option Status) × List CourseTaskLog :=
  match store.find? (fun e => e.task_id == some tid) with
  | none => (some none, store)
  | some entry =>
    if is_ready_state entry.task_state then
      match get_task_completion_message entry with
      | none => (none, store)
      | some (succeeded, message) =>
        (some (some ⟨entry.task_id, entry.task_state, false, some message,
          entry.task_output, none, some succeeded⟩), store)
    else
      match _update_course_task_log entry (executor tid) with
      | none => (none, store)
      | some (e, out, needs_saving) =>
        let store1 := if needs_saving then save_entry store e else store
        if is_ready_state e.task_state then
          match get_task_completion_message e with
          | none => (none, store1)
          | some (succeeded, message) =>
            (some (some ⟨e.task_id, e.task_state, false, some message,
              out.task_progress, out.task_traceback, some succeeded⟩), store1)
        else
          (some (some ⟨e.task_id, e.task_state, true, out.message,
            out.task_progress, out.task_traceback, none⟩), store1)

/-- Outcome of `_submit_task`: the returned row, or the exception that
propagated (`AlreadyRunningError` from the reservation, the dispatch error
raised by `apply_async`, or an exception inside the update step). -/
inductive SubmitOutcome
  | ok (record : CourseTaskLog)
  | alreadyRunning
  | dispatchError (msg : String)
  | internalError
deriving DecidableEq

/-- Recording phase of `_submit_task`: the `_update_task` write of the
dispatch result. -/
def submit_record (store1 : List CourseTaskLog) (course_task_log : CourseTaskLog)
    (task_result : TaskResult) : SubmitOutcome × List CourseTaskLog :=
  match _update_task store1 course_task_log task_result with
  | none => (SubmitOutcome.internalError, store1)
  | some (e, store2) => (SubmitOutcome.ok e, store2)

/-- Outcome of the `apply_async` call followed by the `_update_task` write:
either the dispatch raised (and nothing further ran), or its result was
recorded via `submit_record`. -/
def submit_dispatch (store1 : List CourseTaskLog) (course_task_log : CourseTaskLog)
    (apply_async : Except String TaskResult) : SubmitOutcome × List CourseTaskLog :=
  match apply_async with
  | Except.error msg => (SubmitOutcome.dispatchError msg, store1)
  | Except.ok task_result => submit_record store1 course_task_log task_result

/-- Mirrors `_submit_task`: reserve a row, dispatch to the executor, then
`_update_task` with the dispatch result.  The second component is the table
as persisted when the call returns or raises. -/
def _submit_task (store : List CourseTaskLog) (next_id : Nat)
    (task_type course_id : String) (task_input : TaskInput) (task_key requester : String)
    (apply_async : Except String TaskResult) : SubmitOutcome × List CourseTaskLog :=
  match _reserve_task store next_id course_id task_type task_key task_input requester with
  | (Except.error _, store1) => (SubmitOutcome.alreadyRunning, store1)
  | (Except.ok course_task_log, store1) =>
      submit_dispatch store1 course_task_log apply_async

/-- A store-mutating operation of the module: a status poll
(`_get_course_task_log_status`) or a submission (`_submit_task`). -/
inductive ModuleOp
  | poll (tid : String) (executor : String → TaskResult)
  | submit (next_id : Nat) (task_type course_id : String) (task_input : TaskInput)
      (task_key requester : String) (apply_async : Except String TaskResult)

/-- The table after running one module operation. -/
def applyOp (store : List CourseTaskLog) : ModuleOp → List CourseTaskLog
  | ModuleOp.poll tid executor => (_get_course_task_log_status store executor tid).2
  | ModuleOp.submit next_id task_type course_id task_input task_key requester apply_async =>
      (_submit_task store next_id task_type course_id task_input task_key requester
        apply_async).2

/-- Freshness of the primary key a submission would assign: no existing row
uses it.  (Django's autoincrement primary key guarantees this.) -/
def opFresh (store : List CourseTaskLog) : ModuleOp → Prop
  | ModuleOp.poll _ _ => True
  | ModuleOp.submit next_id _ _ _ _ _ _ => ∀ x ∈ store, x.id ≠ next_id

/-- C1: if the store has a row with the same (course_id, task_type, task_key)
whose state is not terminal, `_reserve_task` raises `AlreadyRunningError` and
inserts no row; otherwise — in particular when only terminal rows with that
key exist — it inserts and returns exactly one new row in state QUEUING with
no executor task id. -/
theorem C1_reserve_task_semantics (store : List CourseTaskLog) (next_id : Nat)
    (course_id task_type task_key : String) (task_input : TaskInput) (requester : String) :
    ((∃ e ∈ store, e.course_id = course_id ∧ e.task_type = task_type ∧
        e.task_key = task_key ∧ e.task_state ∉ READY_STATES) →
      _reserve_task store next_id course_id task_type task_key task_input requester =
        (Except.error "requested task is already running", store)) ∧
    ((¬ ∃ e ∈ store, e.course_id = course_id ∧ e.task_type = task_type ∧
        e.task_key = task_key ∧ e.task_state ∉ READY_STATES) →
      _reserve_task store next_id course_id task_type task_key task_input requester =
        (Except.ok ⟨next_id, course_id, task_type, task_key, some task_input, none,
            "QUEUING", none, requester⟩,
          store ++ [⟨next_id, course_id, task_type, task_key, some task_input, none,
            "QUEUING", none, requester⟩])) := by
  constructor
  · intro h
    have hrun := (task_is_running_iff store course_id task_type task_key).mpr h
    simp [_reserve_task, reserve_insert, hrun]
  · intro h
    have hrun : _task_is_running store course_id task_type task_key = false := by
      cases hb : _task_is_running store course_id task_type task_key
      · rfl
      · exact absurd ((task_is_running_iff store course_id task_type task_key).mp hb) h
    simp [_reserve_task, reserve_insert, hrun]

/-- Concrete non-terminal row used to witness the AlreadyRunning branch. -/
def c1_running_row : CourseTaskLog :=
  ⟨4, "c", "rescore_problem", "_p", some ⟨"p", none⟩, some "t4", "PENDING", none, "alice"⟩

/-- Concrete terminal row used to witness that terminal history does not
block a new reservation. -/
def c1_terminal_row : CourseTaskLog :=
  ⟨3, "c", "rescore_problem", "_p", some ⟨"p", none⟩, some "t3", "SUCCESS",
    some (OutputDict.progress "rescored" 2 2 2), "alice"⟩

/-- Witness for C1: with a PENDING row under the key the reservation raises
and inserts nothing, and with only a SUCCESS row under the key it inserts the
new QUEUING row. -/
theorem C1_reserve_task_semantics_witness :
    ((∃ e ∈ [c1_running_row], e.course_id = "c" ∧ e.task_type = "rescore_problem" ∧
        e.task_key = "_p" ∧ e.task_state ∉ READY_STATES) ∧
      _reserve_task [c1_running_row] 5 "c" "rescore_problem" "_p" ⟨"p", none⟩ "bob" =
        (Except.error "requested task is already running", [c1_running_row])) ∧
    ((¬ ∃ e ∈ [c1_terminal_row], e.course_id = "c" ∧ e.task_type = "rescore_problem" ∧
        e.task_key = "_p" ∧ e.task_state ∉ READY_STATES) ∧
      _reserve_task [c1_terminal_row] 5 "c" "rescore_problem" "_p" ⟨"p", none⟩ "bob" =
        (Except.ok ⟨5, "c", "rescore_problem", "_p", some ⟨"p", none⟩, none,
            "QUEUING", none, "bob"⟩,
          [c1_terminal_row] ++ [⟨5, "c", "rescore_problem", "_p", some ⟨"p", none⟩, none,
            "QUEUING", none, "bob"⟩])) :=
  ⟨⟨by decide,
    (C1_reserve_task_semantics [c1_running_row] 5 "c" "rescore_problem" "_p"
      ⟨"p", none⟩ "bob").1 (by decide)⟩,
   ⟨by decide,
    (C1_reserve_task_semantics [c1_terminal_row] 5 "c" "rescore_problem" "_p"
      ⟨"p", none⟩ "bob").2 (by decide)⟩⟩

/-- Row inserted by the first interleaved reservation. -/
def c2_row_a : CourseTaskLog :=
  ⟨1, "c", "rescore_problem", "_p", some ⟨"p", none⟩, none, "QUEUING", none, "alice"⟩

/-- Row inserted by the second interleaved reservation. -/
def c2_row_b : CourseTaskLog :=
  ⟨2, "c", "rescore_problem", "_p", some ⟨"p", none⟩, none, "QUEUING", none, "bob"⟩

/-- C2: the reservation in the source is a plain read-then-write (the
`_task_is_running` query and the `objects.create` insert are separate
statements under `transaction.autocommit`, with no lock or uniqueness
constraint spanning them), so in the schedule where two concurrent calls with
the same key both run their check before either inserts, both calls succeed
and the table ends up with two non-terminal rows for the key — violating the
claimed exactly-one guarantee. -/
theorem C2_interleaved_reserve_both_succeed :
    reserve_interleaved [] 1 2 "c" "rescore_problem" "_p" ⟨"p", none⟩ "alice" "bob" =
      (Except.ok c2_row_a, Except.ok c2_row_b, [c2_row_a, c2_row_b]) ∧
    (running_filter [c2_row_a, c2_row_b] "c" "rescore_problem" "_p").length = 2 ∧
    _task_is_running [c2_row_a, c2_row_b] "c" "rescore_problem" "_p" = true := by
  refine ⟨rfl, rfl, rfl⟩

/-- Concrete PENDING row used for the C3 scenario. -/
def c3_entry : CourseTaskLog :=
  ⟨7, "c", "rescore_problem", "_p", some ⟨"p", none⟩, some "t7", "PENDING", none, "alice"⟩

/-- Executor snapshot reporting SUCCESS for the C3 scenario. -/
def c3_result : TaskResult :=
  ⟨"t7", "SUCCESS", ResultPayload.dict (OutputDict.progress "rescored" 5 5 5), none⟩

/-- Row as updated in memory by the C3 scenario. -/
def c3_updated_row : CourseTaskLog :=
  ⟨7, "c", "rescore_problem", "_p", some ⟨"p", none⟩, some "t7", "SUCCESS",
    some (OutputDict.progress "rescored" 5 5 5), "alice"⟩

/-- Output dictionary produced by the C3 scenario. -/
def c3_output : UpdateOutput :=
  ⟨none, some (OutputDict.progress "rescored" 5 5 5), none⟩

/-- C3 (counterexample): polling a PENDING row while the executor reports
SUCCESS returns a status carrying the changed state, yet performs no store
write — the table still holds the PENDING row when the poll returns, refuting
the claim that every observed state change is persisted before the poll
returns. -/
theorem C3_success_not_persisted_counterexample :
    (_get_course_task_log_status [c3_entry] (fun _ => c3_result) "t7").2 = [c3_entry] ∧
    (_get_course_task_log_status [c3_entry] (fun _ => c3_result) "t7").1 =
      some (some ⟨some "t7", "SUCCESS", false,
        some "Problem successfully rescored for 5 students",
        some (OutputDict.progress "rescored" 5 5 5), none, some true⟩) ∧
    c3_entry.task_state = "PENDING" :=
  ⟨rfl, rfl, rfl⟩

/-- Helper: the state-specific branch never touches the row's state, id or
task_id, and sets `entry_needs_saving` exactly on a REVOKED observation. -/
lemma update_branch_spec (entry : CourseTaskLog) (res : TaskResult)
    (e : CourseTaskLog) (out : UpdateOutput) (b : Bool)
    (h : update_branch entry res = some (e, out, b)) :
    (b = true ↔ res.state = "REVOKED") ∧ e.task_state = entry.task_state ∧
    e.task_id = entry.task_id ∧ e.id = entry.id := by
  unfold update_branch at h
  repeat' split at h
  all_goals first
    | exact Option.noConfusion h
    | (simp only [Option.some.injEq, Prod.mk.injEq] at h
       obtain ⟨rfl, rfl, rfl⟩ := h
       refine ⟨?_, rfl, rfl, rfl⟩
       simp_all)

/-- Helper: `_update_course_task_log` copies the observed state and the task
id into the row exactly when the observed state differs, never changes the
primary key, and reports `entry_needs_saving` exactly on REVOKED. -/
lemma update_course_task_log_spec (entry : CourseTaskLog) (res : TaskResult)
    (e : CourseTaskLog) (out : UpdateOutput) (b : Bool)
    (h : _update_course_task_log entry res = some (e, out, b)) :
    (b = true ↔ res.state = "REVOKED") ∧ e.id = entry.id ∧
    (res.state ≠ entry.task_state →
      e.task_state = res.state ∧ e.task_id = some res.task_id) ∧
    (res.state = entry.task_state →
      e.task_state = entry.task_state ∧ e.task_id = entry.task_id) := by
  unfold _update_course_task_log at h
  cases hb : update_branch entry res with
  | none => rw [hb] at h; exact Option.noConfusion h
  | some r =>
    obtain ⟨e1, out1, b1⟩ := r
    rw [hb] at h
    obtain ⟨hiff, hstate, hid, hpk⟩ := update_branch_spec entry res e1 out1 b1 hb
    simp only [Option.map_some'] at h
    split at h
    · next hne =>
      simp only [Option.some.injEq, Prod.mk.injEq] at h
      obtain ⟨rfl, rfl, rfl⟩ := h
      rw [hstate] at hne
      refine ⟨hiff, hpk, fun _ => ⟨rfl, rfl⟩, fun hc => absurd hc hne⟩
    · next hne =>
      simp only [Option.some.injEq, Prod.mk.injEq] at h
      obtain ⟨rfl, rfl, rfl⟩ := h
      rw [Decidable.not_not] at hne
      rw [hstate] at hne
      exact ⟨hiff, hpk, fun hc => absurd hne hc, fun _ => ⟨hstate, hid⟩⟩

/-- C3 (amended): `_update_course_task_log` updates the row in memory whenever
the observed state differs from the stored one (copying the new state and the
executor task id), but requests a store write only when the observed state is
REVOKED; consequently the poll path of `_get_course_task_log_status` writes
the store exactly when the executor reports REVOKED, and performs no store
write for any other observed state — changed or not. -/
theorem C3_update_saves_only_on_revoked (entry : CourseTaskLog) (res : TaskResult)
    (e : CourseTaskLog) (out : UpdateOutput) (needs_saving : Bool)
    (h : _update_course_task_log entry res = some (e, out, needs_saving)) :
    (needs_saving = true ↔ res.state = "REVOKED") ∧
    (res.state ≠ entry.task_state →
      e.task_state = res.state ∧ e.task_id = some res.task_id) ∧
    (res.state = entry.task_state →
      e.task_state = entry.task_state ∧ e.task_id = entry.task_id) ∧
    (∀ store tid executor, List.find? (fun x => x.task_id == some tid) store = some entry →
      is_ready_state entry.task_state = false → executor tid = res →
      (_get_course_task_log_status store executor tid).2 =
        (if needs_saving = true then save_entry store e else store)) := by
  obtain ⟨hiff, _, hch, hunch⟩ := update_course_task_log_spec entry res e out needs_saving h
  refine ⟨hiff, hch, hunch, ?_⟩
  intro store tid executor hfind hnr hex
  unfold _get_course_task_log_status
  rw [hfind]
  simp only [hnr, Bool.false_eq_true, if_false]
  rw [hex, h]
  split <;> rename_i hsplit
  · exact Option.noConfusion hsplit
  · simp only [Option.some.injEq, Prod.mk.injEq] at hsplit
    obtain ⟨he, hout, hbb⟩ := hsplit
    subst he; subst hout; subst hbb
    split
    · split <;> rfl
    · rfl

/-- Witness for C3 (amended): at the concrete SUCCESS observation the update
returns the in-memory updated row and `entry_needs_saving = false`. -/
theorem C3_update_saves_only_on_revoked_witness :
    _update_course_task_log c3_entry c3_result = some (c3_updated_row, c3_output, false) ∧
    (false = true ↔ c3_result.state = "REVOKED") :=
  ⟨by decide, (C3_update_saves_only_on_revoked c3_entry c3_result c3_updated_row c3_output
    false (by decide)).1⟩

/-- Helper: a row keeps its place under a save of a row with a different
primary key. -/
lemma mem_save_entry_of_ne (store : List CourseTaskLog) (e e2 : CourseTaskLog)
    (hmem : e ∈ store) (hne : e.id ≠ e2.id) : e ∈ save_entry store e2 := by
  unfold save_entry
  refine List.mem_map.mpr ⟨e, hmem, ?_⟩
  simp [hne]

/-- Helper: distinct rows of a table with nodup primary keys have distinct
primary keys. -/
lemma id_ne_of_nodup (store : List CourseTaskLog) (e f : CourseTaskLog)
    (hnodup : (store.map (fun x => x.id)).Nodup) (he : e ∈ store) (hf : f ∈ store)
    (hne : e ≠ f) : e.id ≠ f.id :=
  fun h => hne (List.inj_on_of_nodup_map hnodup he hf h)

/-- C4: terminal rows are frozen and served from cache.  A status poll that
finds a terminal row returns the same answer under every executor (it never
queries the executor's result object), reports in_progress = false with
task_progress taken from the stored task_output, and leaves the store
untouched.  Moreover no module operation — poll or submit — ever changes a
terminal row afterwards: with distinct primary keys (and a fresh key for a
submission, as Django's autoincrement guarantees) every terminal row survives
any operation unchanged, so a row's state sequence never regresses from a
terminal state. -/
theorem C4_terminal_rows_frozen :
    (∀ store tid entry executor executor2,
      List.find? (fun x => x.task_id == some tid) store = some entry →
      is_ready_state entry.task_state = true →
      _get_course_task_log_status store executor tid =
        _get_course_task_log_status store executor2 tid ∧
      (_get_course_task_log_status store executor tid).2 = store ∧
      (∀ st, (_get_course_task_log_status store executor tid).1 = some (some st) →
        st.in_progress = false ∧ st.task_progress = entry.task_output ∧
        st.task_id = entry.task_id ∧ st.task_state = entry.task_state)) ∧
    (∀ store op e, e ∈ store → is_ready_state e.task_state = true →
      (store.map (fun x => x.id)).Nodup → opFresh store op → e ∈ applyOp store op) := by
  constructor
  · intro store tid entry executor executor2 hfind hready
    unfold _get_course_task_log_status
    rw [hfind]
    simp only [hready, reduceIte]
    refine ⟨trivial, ?_, ?_⟩
    · split <;> rfl
    · intro st hst
      split at hst
      · exact Option.noConfusion hst
      · simp only [Option.some.injEq] at hst
        rw [← hst]
        exact ⟨rfl, rfl, rfl, rfl⟩
  · intro store op e hmem hterm hnodup hfresh
    cases op with
    | poll tid executor =>
      show e ∈ (_get_course_task_log_status store executor tid).2
      unfold _get_course_task_log_status
      cases hfind : List.find? (fun x => x.task_id == some tid) store with
      | none => exact hmem
      | some entry =>
        by_cases hready : is_ready_state entry.task_state = true
        · simp only [hready, reduceIte]
          split <;> exact hmem
        · simp only [Bool.not_eq_true] at hready
          simp only [hready, Bool.false_eq_true, if_false]
          cases hupd : _update_course_task_log entry (executor tid) with
          | none => exact hmem
          | some r =>
            obtain ⟨e1, out1, b1⟩ := r
            have hspec := update_course_task_log_spec entry (executor tid) e1 out1 b1 hupd
            have hentrymem : entry ∈ store := List.mem_of_find?_eq_some hfind
            have hne : e ≠ entry := by
              intro hq
              rw [hq, hready] at hterm
              exact Bool.noConfusion hterm
            have hidne : e.id ≠ e1.id := by
              rw [hspec.2.1]
              exact id_ne_of_nodup store e entry hnodup hmem hentrymem hne
            have hsavemem : e ∈ (if b1 = true then save_entry store e1 else store) := by
              split
              · exact mem_save_entry_of_ne store e e1 hmem hidne
              · exact hmem
            split <;> rename_i hsplit
            · exact hmem
            · simp only [Option.some.injEq, Prod.mk.injEq] at hsplit
              obtain ⟨h1, h2, h3⟩ := hsplit
              subst h1; subst h2; subst h3
              split
              · split <;> exact hsavemem
              · exact hsavemem
    | submit next_id task_type course_id task_input task_key requester apply_async =>
      show e ∈ (_submit_task store next_id task_type course_id task_input task_key
        requester apply_async).2
      unfold _submit_task _reserve_task reserve_insert
      cases hrun : _task_is_running store course_id task_type task_key with
      | true => simpa [hrun] using hmem
      | false =>
        simp only [hrun, Bool.false_eq_true, if_false]
        have hmem1 : e ∈ store ++
            [(⟨next_id, course_id, task_type, task_key, some task_input, none,
              "QUEUING", none, requester⟩ : CourseTaskLog)] := List.mem_append_left _ hmem
        show e ∈ (submit_dispatch (store ++
          [⟨next_id, course_id, task_type, task_key, some task_input, none,
            "QUEUING", none, requester⟩])
          ⟨next_id, course_id, task_type, task_key, some task_input, none,
            "QUEUING", none, requester⟩ apply_async).2
        unfold submit_dispatch
        cases apply_async with
        | error msg => exact hmem1
        | ok task_result =>
          show e ∈ (submit_record (store ++
            [⟨next_id, course_id, task_type, task_key, some task_input, none,
              "QUEUING", none, requester⟩])
            ⟨next_id, course_id, task_type, task_key, some task_input, none,
              "QUEUING", none, requester⟩ task_result).2
          unfold submit_record
          cases hupd : _update_task (store ++
              [(⟨next_id, course_id, task_type, task_key, some task_input, none,
                "QUEUING", none, requester⟩ : CourseTaskLog)])
              ⟨next_id, course_id, task_type, task_key, some task_input, none,
                "QUEUING", none, requester⟩ task_result with
          | none => exact hmem1
          | some r =>
            obtain ⟨e2, store2⟩ := r
            show e ∈ store2
            unfold _update_task at hupd
            cases hupd2 : _update_course_task_log
                ⟨next_id, course_id, task_type, task_key, some task_input, none,
                  "QUEUING", none, requester⟩ task_result with
            | none => rw [hupd2] at hupd; exact Option.noConfusion hupd
            | some r2 =>
              obtain ⟨e3, out3, b3⟩ := r2
              rw [hupd2] at hupd
              simp only [Option.some.injEq, Prod.mk.injEq] at hupd
              obtain ⟨he3, hstore2⟩ := hupd
              have hspec := update_course_task_log_spec
                ⟨next_id, course_id, task_type, task_key, some task_input, none,
                  "QUEUING", none, requester⟩ task_result e3 out3 b3 hupd2
              have hidne : e.id ≠ e3.id := by
                rw [hspec.2.1]
                exact hfresh e hmem
              rw [← hstore2]
              exact mem_save_entry_of_ne _ e e3 hmem1 hidne

/-- Concrete terminal SUCCESS row used to witness C4. -/
def c4_row : CourseTaskLog :=
  ⟨11, "c", "rescore_problem", "_p", some ⟨"p", none⟩, some "t11", "SUCCESS",
    some (OutputDict.progress "rescored" 3 3 3), "alice"⟩

/-- Executor snapshot used by the C4 witness poll (never consulted, since the
row is terminal). -/
def c4_result : TaskResult :=
  ⟨"t11", "PROGRESS", ResultPayload.dict (OutputDict.progress "rescored" 1 1 3), none⟩

/-- Witness for C4: on a one-row table holding a terminal row the hypotheses
hold concretely; the poll leaves the table unchanged and the row survives the
poll operation. -/
theorem C4_terminal_rows_frozen_witness :
    (List.find? (fun x => x.task_id == some "t11") [c4_row] = some c4_row ∧
      is_ready_state c4_row.task_state = true ∧
      (_get_course_task_log_status [c4_row] (fun _ => c4_result) "t11").2 = [c4_row]) ∧
    (c4_row ∈ [c4_row] ∧ (([c4_row] : List CourseTaskLog).map (fun x => x.id)).Nodup ∧
      c4_row ∈ applyOp [c4_row] (ModuleOp.poll "t11" (fun _ => c4_result))) :=
  ⟨⟨by decide, by decide,
    (C4_terminal_rows_frozen.1 [c4_row] "t11" c4_row (fun _ => c4_result) (fun _ => c4_result)
      (by decide) (by decide)).2.1⟩,
   ⟨by decide, by decide,
    C4_terminal_rows_frozen.2 [c4_row] (ModuleOp.poll "t11" (fun _ => c4_result)) c4_row
      (by decide) (by decide) (by decide) trivial⟩⟩

/-- Concrete QUEUING row used for the C5 scenario. -/
def c5_entry : CourseTaskLog :=
  ⟨12, "c", "rescore_problem", "_p", some ⟨"p", none⟩, some "t12", "QUEUING", none, "alice"⟩

/-- Executor snapshot reporting REVOKED for the C5 scenario (its result
carries nothing). -/
def c5_result : TaskResult :=
  ⟨"t12", "REVOKED", ResultPayload.dict ⟨none, none, none, none, none, none, none⟩, none⟩

/-- C5 (counterexample): on a REVOKED observation the normalizer synthesizes
and persists the message "Task revoked before running" — not the claimed
"Job revoked before running". -/
theorem C5_revoked_message_counterexample :
    _update_course_task_log c5_entry c5_result =
      some (⟨12, "c", "rescore_problem", "_p", some ⟨"p", none⟩, some "t12", "REVOKED",
        some (OutputDict.messageOnly "Task revoked before running"), "alice"⟩,
        ⟨some "Task revoked before running",
          some (OutputDict.messageOnly "Task revoked before running"), none⟩, true) ∧
    "Task revoked before running" ≠ "Job revoked before running" :=
  ⟨by decide, by decide⟩

/-- C5 (amended): when the executor reports REVOKED for a non-terminal row,
the normalizer itself synthesizes and persists an output payload whose
message is "Task revoked before running" (the REVOKED branch is the only one
that requests the store write itself), and a subsequent status query for that
row returns in_progress = false, succeeded = false and that same message. -/
theorem C5_revoked_synthesized_and_served (entry : CourseTaskLog) (res : TaskResult)
    (hnr : is_ready_state entry.task_state = false) (hrev : res.state = "REVOKED") :
    ∃ e out,
      _update_course_task_log entry res = some (e, out, true) ∧
      e.task_output = some (OutputDict.messageOnly "Task revoked before running") ∧
      out.message = some "Task revoked before running" ∧
      e.task_state = "REVOKED" ∧ e.task_id = some res.task_id ∧
      (∀ executor,
        (_get_course_task_log_status [e] executor res.task_id).1 =
          some (some ⟨some res.task_id, "REVOKED", false,
            some "Task revoked before running",
            some (OutputDict.messageOnly "Task revoked before running"), none,
            some false⟩)) := by
  obtain ⟨rtid, rstate, rres, rtb⟩ := res
  simp only at hrev
  subst hrev
  have hne : ("REVOKED" : String) ≠ entry.task_state := by
    intro hq
    rw [← hq] at hnr
    exact absurd hnr (by decide)
  refine ⟨{ entry with
      task_output := some (OutputDict.messageOnly "Task revoked before running"),
      task_state := "REVOKED", task_id := some rtid },
    ⟨some "Task revoked before running",
      some (OutputDict.messageOnly "Task revoked before running"), none⟩,
    ?_, rfl, rfl, rfl, rfl, ?_⟩
  · unfold _update_course_task_log update_branch
    simp [hne]
  · intro executor
    unfold _get_course_task_log_status
    simp [get_task_completion_message, is_ready_state, READY_STATES,
      OutputDict.messageOnly, List.find?]

/-- Witness for C5 (amended): the concrete QUEUING row and REVOKED snapshot
satisfy the hypotheses and the synthesized outcome follows. -/
theorem C5_revoked_synthesized_and_served_witness :
    is_ready_state c5_entry.task_state = false ∧ c5_result.state = "REVOKED" ∧
    ∃ e out,
      _update_course_task_log c5_entry c5_result = some (e, out, true) ∧
      e.task_output = some (OutputDict.messageOnly "Task revoked before running") ∧
      out.message = some "Task revoked before running" ∧
      e.task_state = "REVOKED" ∧ e.task_id = some c5_result.task_id ∧
      (∀ executor,
        (_get_course_task_log_status [e] executor c5_result.task_id).1 =
          some (some ⟨some c5_result.task_id, "REVOKED", false,
            some "Task revoked before running",
            some (OutputDict.messageOnly "Task revoked before running"), none,
            some false⟩)) :=
  ⟨by decide, by decide,
    C5_revoked_synthesized_and_served c5_entry c5_result (by decide) (by decide)⟩

/-- Concrete SUCCESS row with a named student, attempted = 0 and updated = 1,
used to refute the claimed success condition. -/
def c6_entry : CourseTaskLog :=
  ⟨13, "c", "rescore_problem", "9_p", some ⟨"p", some "s7"⟩, some "t13", "SUCCESS",
    some (OutputDict.progress "rescored" 0 1 1), "alice"⟩

/-- C6 (counterexample): on a subject-scoped SUCCESS row with updated > 0 but
attempted = 0 the code reports succeeded = false (the attempted = 0 branch
wins), refuting the claim that a named subject with updated > 0 always
succeeds. -/
theorem C6_subject_updated_pos_not_succeeded_counterexample :
    c6_entry.task_input = some ⟨"p", some "s7"⟩ ∧
    c6_entry.task_output = some (OutputDict.progress "rescored" 0 1 1) ∧
    (0 : Int) < 1 ∧
    get_task_completion_message c6_entry =
      some (false,
        "Unable to find submission to be rescored for student \x27s7\x27 (out of 1)") :=
  ⟨rfl, rfl, by decide, by decide⟩


/-- Spec-side message templates for a SUCCESS row's completion message, in
the source's wording (messages speak of "student(s)" and "Problem"), with
" (out of {total})" appended exactly when the outcome is subject-scoped and
attempted differs from total. -/
def completion_message_spec (student : Option String) (action_name : String)
    (num_attempted num_updated num_total : Int) : String :=
  let base : String :=
    match student with
    | some s =>
      if num_attempted = 0 then
        "Unable to find submission to be " ++ action_name ++ " for student \x27" ++ s ++ "\x27"
      else if num_updated = 0 then
        "Problem failed to be " ++ action_name ++ " for student \x27" ++ s ++ "\x27"
      else
        "Problem successfully " ++ action_name ++ " for student \x27" ++ s ++ "\x27"
    | none =>
      if num_attempted = 0 then
        "Unable to find any students with submissions to be " ++ action_name
      else if num_updated = 0 then
        "Problem failed to be " ++ action_name ++ " for any of " ++
          toString num_attempted ++ " students"
      else if num_updated = num_attempted then
        "Problem successfully " ++ action_name ++ " for " ++
          toString num_attempted ++ " students"
      else
        "Problem " ++ action_name ++ " for " ++ toString num_updated ++ " of " ++
          toString num_attempted ++ " students"
  if student.isSome && (num_attempted != num_total) then
    base ++ " (out of " ++ toString num_total ++ ")"
  else base

/-- C6 (amended): on a SUCCESS row whose output carries the four counters and
whose input may name a student, `get_task_completion_message` returns a pair
whose succeeded flag is true exactly when either a student is named and both
attempted and updated are nonzero, or no student is named and attempted is
nonzero with updated = attempted; the message follows the source's per-case
templates and subject-scoped messages carry " (out of {total})" exactly when
attempted differs from total.  (For the bulk case the counters must satisfy
updated ≤ attempted; otherwise the function raises instead, see C10.) -/
theorem C6_success_completion_message (entry : CourseTaskLog) (task_input : TaskInput)
    (action_name : String) (num_attempted num_updated num_total : Int)
    (hstate : entry.task_state = "SUCCESS")
    (hout : entry.task_output =
      some (OutputDict.progress action_name num_attempted num_updated num_total))
    (hin : entry.task_input = some task_input)
    (hbound : task_input.student = none → num_updated ≤ num_attempted) :
    ∃ succeeded message,
      get_task_completion_message entry = some (succeeded, message) ∧
      (succeeded = true ↔
        ((task_input.student ≠ none ∧ num_attempted ≠ 0 ∧ num_updated ≠ 0) ∨
         (task_input.student = none ∧ num_attempted ≠ 0 ∧
           num_updated = num_attempted))) ∧
      message = completion_message_spec task_input.student action_name num_attempted
        num_updated num_total := by
  unfold get_task_completion_message completion_message_spec
  rw [hout, hstate, hin]
  obtain ⟨purl, stu⟩ := task_input
  cases stu with
  | some s =>
    by_cases h0 : num_attempted = 0 <;> by_cases h1 : num_updated = 0 <;>
      simp [OutputDict.progress, h0, h1] <;>
      (split <;> rfl)
  | none =>
    have hb : num_updated ≤ num_attempted := hbound rfl
    by_cases h0 : num_attempted = 0
    · simp [OutputDict.progress, h0]
    · by_cases h1 : num_updated = 0
      · simp [OutputDict.progress, h0, h1]
        omega
      · by_cases h2 : num_updated = num_attempted
        · simp [OutputDict.progress, h0, h1, h2]
        · have hlt : num_updated < num_attempted := lt_of_le_of_ne hb h2
          simp [OutputDict.progress, h0, h1, h2, hlt]

/-- Concrete subject-scoped SUCCESS row used to witness C6 (amended). -/
def c6_witness_row : CourseTaskLog :=
  ⟨14, "c", "rescore_problem", "9_p", some ⟨"p", some "s7"⟩, some "t14", "SUCCESS",
    some (OutputDict.progress "rescored" 2 2 3), "alice"⟩

/-- Witness for C6 (amended): a subject-scoped SUCCESS row with attempted = 2,
updated = 2, total = 3 satisfies the hypotheses and the conclusions follow. -/
theorem C6_success_completion_message_witness :
    c6_witness_row.task_state = "SUCCESS" ∧
    c6_witness_row.task_output = some (OutputDict.progress "rescored" 2 2 3) ∧
    c6_witness_row.task_input = some ⟨"p", some "s7"⟩ ∧
    ∃ succeeded message,
      get_task_completion_message c6_witness_row = some (succeeded, message) ∧
      (succeeded = true ↔
        (((⟨"p", some "s7"⟩ : TaskInput).student ≠ none ∧ (2 : Int) ≠ 0 ∧
            (2 : Int) ≠ 0) ∨
         ((⟨"p", some "s7"⟩ : TaskInput).student = none ∧ (2 : Int) ≠ 0 ∧
            (2 : Int) = 2))) ∧
      message = completion_message_spec (⟨"p", some "s7"⟩ : TaskInput).student
        "rescored" 2 2 3 :=
  ⟨rfl, rfl, rfl,
    C6_success_completion_message c6_witness_row ⟨"p", some "s7"⟩ "rescored" 2 2 3 rfl rfl rfl
      (fun h => Option.noConfusion h)⟩

/-- C7: a terminal row with no stored task_output yields succeeded = false
and the message "No status information available" without raising, so a
status query on such a row completes normally with that message rather than
crashing. -/
theorem C7_missing_output_fallback (entry : CourseTaskLog) (tid : String)
    (executor : String → TaskResult)
    (hterm : is_ready_state entry.task_state = true)
    (hout : entry.task_output = none)
    (hid : entry.task_id = some tid) :
    get_task_completion_message entry = some (false, "No status information available") ∧
    _get_course_task_log_status [entry] executor tid =
      (some (some ⟨some tid, entry.task_state, false,
        some "No status information available", none, none, some false⟩), [entry]) := by
  have hmsg : get_task_completion_message entry =
      some (false, "No status information available") := by
    unfold get_task_completion_message
    rw [hout]
  refine ⟨hmsg, ?_⟩
  unfold _get_course_task_log_status
  have hfind : List.find? (fun x => x.task_id == some tid) [entry] = some entry := by
    simp [List.find?, hid]
  rw [hfind]
  simp [hterm, hmsg, hid, hout]

/-- Concrete terminal FAILURE row lacking an output payload, used to witness
C7. -/
def c7_row : CourseTaskLog :=
  ⟨16, "c", "rescore_problem", "_p", some ⟨"p", none⟩, some "t16", "FAILURE", none, "alice"⟩

/-- Witness for C7: the concrete terminal row with no output produces the
fallback message and a normal status answer. -/
theorem C7_missing_output_fallback_witness :
    is_ready_state c7_row.task_state = true ∧ c7_row.task_output = none ∧
    c7_row.task_id = some "t16" ∧
    get_task_completion_message c7_row = some (false, "No status information available") ∧
    _get_course_task_log_status [c7_row] (fun t => ⟨t, "PENDING",
        ResultPayload.dict ⟨none, none, none, none, none, none, none⟩, none⟩) "t16" =
      (some (some ⟨some "t16", c7_row.task_state, false,
        some "No status information available", none, none, some false⟩), [c7_row]) :=
  ⟨by decide, rfl, rfl,
    (C7_missing_output_fallback c7_row "t16" (fun t => ⟨t, "PENDING",
        ResultPayload.dict ⟨none, none, none, none, none, none, none⟩, none⟩)
      (by decide) rfl rfl).1,
    (C7_missing_output_fallback c7_row "t16" (fun t => ⟨t, "PENDING",
        ResultPayload.dict ⟨none, none, none, none, none, none, none⟩, none⟩)
      (by decide) rfl rfl).2⟩

/-- C8: if the executor dispatch (`apply_async`) raises during
`_submit_task`, the exception propagates unchanged to the caller and the
previously reserved row remains stored in state QUEUING with no executor
task id — no update of the row happens on the dispatch-failure path. -/
theorem C8_dispatch_failure_leaves_queuing (store : List CourseTaskLog) (next_id : Nat)
    (task_type course_id : String) (task_input : TaskInput) (task_key requester : String)
    (msg : String)
    (hrun : _task_is_running store course_id task_type task_key = false) :
    _submit_task store next_id task_type course_id task_input task_key requester
      (Except.error msg) =
      (SubmitOutcome.dispatchError msg,
        store ++ [⟨next_id, course_id, task_type, task_key, some task_input, none,
          "QUEUING", none, requester⟩]) := by
  unfold _submit_task _reserve_task reserve_insert submit_dispatch
  simp [hrun]

/-- Witness for C8: dispatch failure on an empty table leaves the single
QUEUING row, and the dispatch error text is returned unchanged. -/
theorem C8_dispatch_failure_leaves_queuing_witness :
    _task_is_running [] "c" "rescore_problem" "_p" = false ∧
    _submit_task [] 21 "rescore_problem" "c" ⟨"p", none⟩ "_p" "alice"
      (Except.error "dispatch failed") =
      (SubmitOutcome.dispatchError "dispatch failed",
        [] ++ [⟨21, "c", "rescore_problem", "_p", some ⟨"p", none⟩, none,
          "QUEUING", none, "alice"⟩]) :=
  ⟨by decide, C8_dispatch_failure_leaves_queuing [] 21 "rescore_problem" "c" ⟨"p", none⟩
    "_p" "alice" "dispatch failed" (by decide)⟩

/-- C10: on a bulk SUCCESS row (no student in its input) whose counters have
attempted > 0, updated > 0 and updated > attempted, no branch assigns the
message template and `get_task_completion_message` raises at the final format
step (returns no pair); under the precondition updated ≤ attempted the
function is total on such rows. -/
theorem C10_bulk_updated_gt_attempted_raises (entry : CourseTaskLog)
    (task_input : TaskInput) (action_name : String)
    (num_attempted num_updated num_total : Int)
    (hstate : entry.task_state = "SUCCESS")
    (hout : entry.task_output =
      some (OutputDict.progress action_name num_attempted num_updated num_total))
    (hin : entry.task_input = some task_input)
    (hstu : task_input.student = none) :
    (0 < num_attempted → 0 < num_updated → num_attempted < num_updated →
      get_task_completion_message entry = none) ∧
    (num_updated ≤ num_attempted →
      (get_task_completion_message entry).isSome = true) := by
  obtain ⟨purl, stu⟩ := task_input
  simp only at hstu
  subst hstu
  unfold get_task_completion_message
  rw [hout, hstate, hin]
  constructor
  · intro ha hu hlt
    have h0 : ¬(num_attempted = 0) := by omega
    have h1 : ¬(num_updated = 0) := by omega
    have h2 : ¬(num_updated = num_attempted) := by omega
    have h3 : ¬(num_updated < num_attempted) := by omega
    simp [OutputDict.progress, h0, h1, h2, h3]
  · intro hle
    by_cases h0 : num_attempted = 0
    · simp [OutputDict.progress, h0]
    · by_cases h1 : num_updated = 0
      · simp [OutputDict.progress, h0, h1]
      · by_cases h2 : num_updated = num_attempted
        · simp [OutputDict.progress, h0, h1, h2]
        · have hlt : num_updated < num_attempted := lt_of_le_of_ne hle h2
          simp [OutputDict.progress, h0, h1, h2, hlt]

/-- Concrete bulk SUCCESS row with updated = 2 greater than attempted = 1,
used to witness C10. -/
def c10_entry : CourseTaskLog :=
  ⟨15, "c", "rescore_problem", "_p", some ⟨"p", none⟩, some "t15", "SUCCESS",
    some (OutputDict.progress "rescored" 1 2 3), "alice"⟩

/-- Witness for C10: the concrete row satisfies the hypotheses and the call
raises (returns no pair). -/
theorem C10_bulk_updated_gt_attempted_raises_witness :
    c10_entry.task_state = "SUCCESS" ∧
    c10_entry.task_output = some (OutputDict.progress "rescored" 1 2 3) ∧
    c10_entry.task_input = some ⟨"p", none⟩ ∧
    (0 : Int) < 1 ∧ (0 : Int) < 2 ∧ (1 : Int) < 2 ∧
    get_task_completion_message c10_entry = none :=
  ⟨rfl, rfl, rfl, by decide, by decide, by decide,
    (C10_bulk_updated_gt_attempted_raises c10_entry ⟨"p", none⟩ "rescored" 1 2 3
      rfl rfl rfl rfl).1 (by decide) (by decide) (by decide)⟩
